import Mathlib

/-!
Verification of the workflow state machine, streaming aggregation and
bilingual composition of the lao-chinese-document-translator repository.

The embedding below follows the application source (`App.tsx`): the
`AppState` record, the `AppAction` tagged union, the `appReducer`
transition function, the `handleTranslate` streaming loop, and the
bilingual composition inside `handleDownload`. JavaScript truthiness
tests on strings (`payload ? … : …`, `blockReason` guards,
`originalParas[i] ? … : …`) are rendered as explicit emptiness tests.
-/

namespace LaoChinese

/-- The `status` field of `AppState`:
`'idle' | 'parsing' | 'ready' | 'translating' | 'complete' | 'error'`. -/
inductive Status where
  | idle
  | parsing
  | ready
  | translating
  | complete
  | error
deriving DecidableEq, Repr

/-- The two translation directions from `types.ts`. -/
inductive TranslationDirection where
  | LaoToChinese
  | ChineseToLao
deriving DecidableEq, Repr

/-- The `downloadMode` field: `'translation' | 'bilingual'`. -/
inductive DownloadMode where
  | translation
  | bilingual
deriving DecidableEq, Repr

/-- The `inputMode` field: `'upload' | 'text'`. -/
inductive InputMode where
  | upload
  | text
deriving DecidableEq, Repr

/-- The `AppState` interface. A `File` value is represented by its name;
`error: string | null` becomes `Option String`. -/
structure AppState where
  status : Status
  file : Option String
  fileContent : String
  direction : TranslationDirection
  translatedText : String
  error : Option String
  anonymize : Bool
  downloadMode : DownloadMode
  inputMode : InputMode
deriving DecidableEq, Repr

/-- The `AppAction` tagged union. -/
inductive AppAction where
  | SET_INPUT_MODE (m : InputMode)
  | START_PARSING (f : String)
  | PARSE_SUCCESS (text : String)
  | SET_TEXT_CONTENT (text : String)
  | SET_ERROR (msg : String)
  | TRANSLATE
  | TRANSLATION_CHUNK (text : String)
  | TRANSLATION_COMPLETE
  | RESET
  | SET_DIRECTION (d : TranslationDirection)
  | SET_ANONYMIZE (b : Bool)
  | SET_DOWNLOAD_MODE (m : DownloadMode)
deriving DecidableEq, Repr

/-- `initialState` from the source. -/
def initialState : AppState where
  status := .idle
  file := none
  fileContent := ""
  direction := .LaoToChinese
  translatedText := ""
  error := none
  anonymize := true
  downloadMode := .translation
  inputMode := .upload

/-- `appReducer` from the source, case for case. In `SET_TEXT_CONTENT`
the JavaScript truthiness test `action.payload ? 'ready' : 'idle'` is an
emptiness test on the string payload. -/
def appReducer (state : AppState) (action : AppAction) : AppState :=
  match action with
  | .SET_INPUT_MODE m => { state with inputMode := m }
  | .START_PARSING f =>
      { initialState with
        status := .parsing
        file := some f
        inputMode := .upload
        direction := state.direction
        anonymize := state.anonymize }
  | .PARSE_SUCCESS text => { state with status := .ready, fileContent := text }
  | .SET_TEXT_CONTENT text =>
      { initialState with
        status := if text = "" then .idle else .ready
        fileContent := text
        inputMode := .text
        direction := state.direction
        anonymize := state.anonymize }
  | .SET_ERROR msg => { state with status := .error, error := some msg }
  | .TRANSLATE =>
      { state with status := .translating, error := none, translatedText := "" }
  | .TRANSLATION_CHUNK text =>
      { state with translatedText := state.translatedText ++ text }
  | .TRANSLATION_COMPLETE => { state with status := .complete }
  | .RESET =>
      { initialState with
        direction := state.direction
        anonymize := state.anonymize
        downloadMode := state.downloadMode }
  | .SET_DIRECTION d => { state with direction := d }
  | .SET_ANONYMIZE b => { state with anonymize := b }
  | .SET_DOWNLOAD_MODE m => { state with downloadMode := m }

/-- A chunk of the translation stream: `{text, blockReason?}` (the
`promptFeedback?.blockReason` field of a streamed response chunk). -/
structure TranslationChunk where
  text : String
  blockReason : Option String
deriving DecidableEq, Repr

/-- JavaScript truthiness of `chunk.promptFeedback?.blockReason`: true
exactly when the optional string is present and non-empty. -/
def strOptTruthy : Option String → Bool
  | none => false
  | some s => s ≠ ""

/-- The error message built by `handleTranslate` when the first chunk
carries a block reason. -/
def blockedMessage (reason : String) : String :=
  "Translation was blocked due to: " ++ reason ++
    ". This may be due to the document's content."

/-- The error message dispatched by `handleTranslate` when invoked with
empty `fileContent`. -/
def noContentMessage : String :=
  "No content to translate. The document might be empty or failed to parse."

/-- The `for await (const chunk of stream)` loop of `handleTranslate`:
starting from state `s` with the `firstChunk` flag, consume the delivered
chunks in order. Returns the state after all dispatched
`TRANSLATION_CHUNK` actions, together with `some msg` when the loop threw
the block-reason error (which aborts the loop before dispatching that
chunk), else `none`. -/
def streamLoop : AppState → List TranslationChunk → Bool → AppState × Option String
  | s, [], _ => (s, none)
  | s, c :: rest, firstChunk =>
      if firstChunk && strOptTruthy c.blockReason then
        (s, some (blockedMessage (c.blockReason.getD "")))
      else
        streamLoop (appReducer s (.TRANSLATION_CHUNK c.text)) rest false

/-- How the underlying stream terminates after delivering its chunks:
it either ends normally or raises a failure with message `msg`. -/
inductive StreamOutcome where
  | ended
  | threw (msg : String)
deriving DecidableEq, Repr

/-- `handleTranslate` from the source: guard on empty content, dispatch
`TRANSLATE`, run the chunk loop, then dispatch `TRANSLATION_COMPLETE` on
normal end or `SET_ERROR` when the loop threw (first-chunk block reason)
or the stream itself raised a failure. `chunks` are the chunks the stream
delivered before `outcome`. -/
def handleTranslate (state : AppState) (chunks : List TranslationChunk)
    (outcome : StreamOutcome) : AppState :=
  if state.fileContent = "" then
    appReducer state (.SET_ERROR noContentMessage)
  else
    let s1 := appReducer state .TRANSLATE
    match streamLoop s1 chunks true with
    | (s2, some msg) => appReducer s2 (.SET_ERROR msg)
    | (s2, none) =>
        match outcome with
        | .ended => appReducer s2 .TRANSLATION_COMPLETE
        | .threw msg => appReducer s2 (.SET_ERROR msg)

/-- Applying one `TRANSLATION_CHUNK` action per chunk, in stream order. -/
def applyChunks (s : AppState) (chunks : List TranslationChunk) : AppState :=
  chunks.foldl (fun t c => appReducer t (.TRANSLATION_CHUNK c.text)) s

/-- Ordered concatenation of the chunks' `text` fields. -/
def concatTexts : List TranslationChunk → String
  | [] => ""
  | c :: rest => c.text ++ concatTexts rest

/-- Whether the first delivered chunk carries a (truthy) block reason —
the only position at which `handleTranslate` checks it. -/
def firstBlocked : List TranslationChunk → Bool
  | [] => false
  | c :: _ => strOptTruthy c.blockReason

/-- The missing-paragraph placeholder of the bilingual composition. -/
def missingPara : String := "[...段落缺失...]"

/-- The original side of paragraph block `i` in `handleDownload`:
`originalParas[i] ? ('原文：\n' + originalParas[i]) : '原文：\n[...段落缺失...]'`,
with JavaScript truthiness of the indexed string made explicit. -/
def originalSide (originalParas : List String) (i : Nat) : String :=
  match originalParas[i]? with
  | some p => if p = "" then "原文：\n" ++ missingPara else "原文：\n" ++ p
  | none => "原文：\n" ++ missingPara

/-- The translated side of paragraph block `i` in `handleDownload`. -/
def translatedSide (translatedParas : List String) (i : Nat) : String :=
  match translatedParas[i]? with
  | some p => if p = "" then "译文：\n" ++ missingPara else "译文：\n" ++ p
  | none => "译文：\n" ++ missingPara

/-- One labelled paragraph block:
``--- 段落 ${i + 1} ---\n\n${original}\n\n${translated}``. -/
def paragraphBlock (originalParas translatedParas : List String) (i : Nat) : String :=
  "--- 段落 " ++ toString (i + 1) ++ " ---\n\n" ++
    originalSide originalParas i ++ "\n\n" ++ translatedSide translatedParas i

/-- The `bilingualContent` array built by the `for` loop of
`handleDownload`: `maxLength = max(originalParas.length, translatedParas.length)`
blocks, index-wise. -/
def bilingualBlocks (originalParas translatedParas : List String) : List String :=
  (List.range (max originalParas.length translatedParas.length)).map
    (paragraphBlock originalParas translatedParas)

/-- `bilingualContent.join('\n\n\n')`: the composed bilingual document. -/
def bilingualContent (originalParas translatedParas : List String) : String :=
  String.intercalate "\n\n\n" (bilingualBlocks originalParas translatedParas)

/-- States reachable by the workflow: the closure of `appReducer` over the
event sequences the application's handlers can emit. `PARSE_SUCCESS` is
dispatched only by `handleFileSelect` after `START_PARSING` (status
`parsing`), and `TRANSLATION_CHUNK` / `TRANSLATION_COMPLETE` only by
`handleTranslate` after `TRANSLATE` (status `translating`); every other
action is allowed from any state. -/
inductive Reachable : AppState → Prop where
  | init : Reachable initialState
  | setInputMode {s : AppState} (m : InputMode) :
      Reachable s → Reachable (appReducer s (.SET_INPUT_MODE m))
  | startParsing {s : AppState} (f : String) :
      Reachable s → Reachable (appReducer s (.START_PARSING f))
  | parseSuccess {s : AppState} (t : String) :
      Reachable s → s.status = .parsing →
      Reachable (appReducer s (.PARSE_SUCCESS t))
  | setTextContent {s : AppState} (t : String) :
      Reachable s → Reachable (appReducer s (.SET_TEXT_CONTENT t))
  | setError {s : AppState} (msg : String) :
      Reachable s → Reachable (appReducer s (.SET_ERROR msg))
  | translate {s : AppState} :
      Reachable s → Reachable (appReducer s .TRANSLATE)
  | translationChunk {s : AppState} (t : String) :
      Reachable s → s.status = .translating →
      Reachable (appReducer s (.TRANSLATION_CHUNK t))
  | translationComplete {s : AppState} :
      Reachable s → s.status = .translating →
      Reachable (appReducer s .TRANSLATION_COMPLETE)
  | reset {s : AppState} :
      Reachable s → Reachable (appReducer s .RESET)
  | setDirection {s : AppState} (d : TranslationDirection) :
      Reachable s → Reachable (appReducer s (.SET_DIRECTION d))
  | setAnonymize {s : AppState} (b : Bool) :
      Reachable s → Reachable (appReducer s (.SET_ANONYMIZE b))
  | setDownloadMode {s : AppState} (m : DownloadMode) :
      Reachable s → Reachable (appReducer s (.SET_DOWNLOAD_MODE m))

/-- A state with status `ready` obtained by pasting text. -/
def readyState : AppState := appReducer initialState (.SET_TEXT_CONTENT "doc")

/-- The ready state after dispatching `TRANSLATE`. -/
def translatingState : AppState := appReducer readyState .TRANSLATE

/-- A `TRANSLATION_CHUNK` dispatch appends its payload and changes no
other field. -/
theorem appReducer_chunk (s : AppState) (t : String) :
    appReducer s (.TRANSLATION_CHUNK t) =
      { s with translatedText := s.translatedText ++ t } := rfl

/-- Folding the chunk dispatches appends the concatenated texts to the
current buffer. -/
theorem applyChunks_translatedText (chunks : List TranslationChunk) :
    ∀ s : AppState,
      (applyChunks s chunks).translatedText = s.translatedText ++ concatTexts chunks := by
  induction chunks with
  | nil => intro s; simp [applyChunks, concatTexts, String.append_empty]
  | cons c rest ih =>
      intro s
      show (applyChunks (appReducer s (.TRANSLATION_CHUNK c.text)) rest).translatedText = _
      rw [ih, appReducer_chunk]
      simp [concatTexts, String.append_assoc]

/-- Chunk dispatches leave every field but `translatedText` unchanged. -/
theorem applyChunks_frame (chunks : List TranslationChunk) :
    ∀ s : AppState,
      (applyChunks s chunks).status = s.status ∧
      (applyChunks s chunks).fileContent = s.fileContent ∧
      (applyChunks s chunks).error = s.error := by
  induction chunks with
  | nil => intro s; exact ⟨rfl, rfl, rfl⟩
  | cons c rest ih =>
      intro s
      show (applyChunks (appReducer s (.TRANSLATION_CHUNK c.text)) rest).status = _ ∧ _
      rw [appReducer_chunk]
      exact ih _

/-- Character count of the concatenation is the sum of the chunk lengths. -/
theorem concatTexts_length (chunks : List TranslationChunk) :
    (concatTexts chunks).length = (chunks.map (fun c => c.text.length)).sum := by
  induction chunks with
  | nil => rfl
  | cons c rest ih => simp [concatTexts, String.length_append, ih]

/-- Once the `firstChunk` flag is cleared, the loop never throws: it just
folds the chunk dispatches. -/
theorem streamLoop_not_first (chunks : List TranslationChunk) :
    ∀ s : AppState, streamLoop s chunks false = (applyChunks s chunks, none) := by
  induction chunks with
  | nil => intro s; rfl
  | cons c rest ih =>
      intro s
      show streamLoop (appReducer s (.TRANSLATION_CHUNK c.text)) rest false = _
      exact ih _

/-- When the first chunk carries no (truthy) block reason, the whole loop
is the fold of the chunk dispatches and does not throw. -/
theorem streamLoop_unblocked (chunks : List TranslationChunk) (s : AppState)
    (h : firstBlocked chunks = false) :
    streamLoop s chunks true = (applyChunks s chunks, none) := by
  cases chunks with
  | nil => rfl
  | cons c rest =>
      have hb : strOptTruthy c.blockReason = false := h
      show streamLoop s (c :: rest) true = _
      rw [streamLoop, hb]
      simp only [Bool.and_false, Bool.false_eq_true, if_false]
      exact streamLoop_not_first rest _

/-- A state with status `translating` and a non-empty buffer, after one
chunk arrived. -/
def chunkState : AppState := appReducer translatingState (.TRANSLATION_CHUNK "chunk1")

/-- A state with status `complete`, after a finished translation run. -/
def completeState : AppState := appReducer chunkState .TRANSLATION_COMPLETE

/-- C4: starting from a `ready` state and applying the `TRANSLATE` event
followed by one `TRANSLATION_CHUNK` event per chunk in stream order (no
chunk carrying a block reason), the resulting `translatedText` equals the
ordered concatenation of the chunks' `text` fields, and its length equals
the sum of the lengths of the individual increments. -/
theorem chunks_concat_in_order (s : AppState) (chunks : List TranslationChunk)
    (_hs : s.status = .ready) (_hnb : ∀ c ∈ chunks, c.blockReason = none) :
    (applyChunks (appReducer s .TRANSLATE) chunks).translatedText = concatTexts chunks ∧
    (applyChunks (appReducer s .TRANSLATE) chunks).translatedText.length =
      (chunks.map (fun c => c.text.length)).sum := by
  have h1 := applyChunks_translatedText chunks (appReducer s .TRANSLATE)
  have h2 : (appReducer s .TRANSLATE).translatedText = "" := rfl
  rw [h2, String.empty_append] at h1
  exact ⟨h1, by rw [h1, concatTexts_length]⟩

/-- C4 witness: a concrete two-chunk stream accumulates to the exact
concatenation with matching length. -/
theorem chunks_concat_in_order_witness :
    (applyChunks (appReducer readyState .TRANSLATE)
        [⟨"Hello", none⟩, ⟨" World", none⟩]).translatedText =
      concatTexts [⟨"Hello", none⟩, ⟨" World", none⟩] ∧
    (applyChunks (appReducer readyState .TRANSLATE)
        [⟨"Hello", none⟩, ⟨" World", none⟩]).translatedText.length =
      (([⟨"Hello", none⟩, ⟨" World", none⟩] : List TranslationChunk).map
        (fun c => c.text.length)).sum :=
  chunks_concat_in_order readyState [⟨"Hello", none⟩, ⟨" World", none⟩] rfl (by decide)

/-- C6: a run whose first chunk carries a (non-empty) block reason aborts
before any text is accumulated: `translatedText` ends empty, status is
`error`, and the error message embeds the block reason. -/
theorem first_chunk_block_aborts (s : AppState) (c : TranslationChunk)
    (rest : List TranslationChunk) (outcome : StreamOutcome) (reason : String)
    (hc : s.fileContent ≠ "") (hbr : c.blockReason = some reason) (hr : reason ≠ "") :
    (handleTranslate s (c :: rest) outcome).status = .error ∧
    (handleTranslate s (c :: rest) outcome).translatedText = "" ∧
    (handleTranslate s (c :: rest) outcome).error = some (blockedMessage reason) ∧
    ∃ pre post, blockedMessage reason = pre ++ reason ++ post := by
  have hb : strOptTruthy (some reason) = true := by
    simpa [strOptTruthy] using hr
  have hloop : streamLoop (appReducer s .TRANSLATE) (c :: rest) true =
      (appReducer s .TRANSLATE, some (blockedMessage reason)) := by
    simp [streamLoop, hbr, hb]
  simp only [handleTranslate, if_neg hc, hloop]
  exact ⟨rfl, rfl, rfl,
    "Translation was blocked due to: ",
    ". This may be due to the document's content.", rfl⟩

/-- C6 witness: a concrete blocked first chunk yields the error state with
an empty buffer and the embedding message. -/
theorem first_chunk_block_aborts_witness :
    (handleTranslate readyState [⟨"", some "SAFETY"⟩] .ended).status = .error ∧
    (handleTranslate readyState [⟨"", some "SAFETY"⟩] .ended).translatedText = "" ∧
    (handleTranslate readyState [⟨"", some "SAFETY"⟩] .ended).error =
      some (blockedMessage "SAFETY") ∧
    ∃ pre post, blockedMessage "SAFETY" = pre ++ "SAFETY" ++ post :=
  first_chunk_block_aborts readyState ⟨"", some "SAFETY"⟩ [] .ended "SAFETY"
    (by decide) rfl (by decide)

/-- C7: applying `RESET` to a state with status `complete` or `error`
yields status `idle` with empty `fileContent` and `translatedText`, while
`direction`, `anonymize` and `downloadMode` keep their prior values. -/
theorem reset_from_terminal (s : AppState)
    (_h : s.status = .complete ∨ s.status = .error) :
    (appReducer s .RESET).status = .idle ∧
    (appReducer s .RESET).fileContent = "" ∧
    (appReducer s .RESET).translatedText = "" ∧
    (appReducer s .RESET).direction = s.direction ∧
    (appReducer s .RESET).anonymize = s.anonymize ∧
    (appReducer s .RESET).downloadMode = s.downloadMode :=
  ⟨rfl, rfl, rfl, rfl, rfl, rfl⟩

/-- C7 witness: resetting the concrete completed run. -/
theorem reset_from_terminal_witness :
    (appReducer completeState .RESET).status = .idle ∧
    (appReducer completeState .RESET).fileContent = "" ∧
    (appReducer completeState .RESET).translatedText = "" ∧
    (appReducer completeState .RESET).direction = completeState.direction ∧
    (appReducer completeState .RESET).anonymize = completeState.anonymize ∧
    (appReducer completeState .RESET).downloadMode = completeState.downloadMode :=
  reset_from_terminal completeState (Or.inl rfl)

/-- C10: the `TRANSLATE` action on any state with non-empty source content
clears `translatedText` and `error` and sets status `translating`, so a
run starts from an empty buffer and a previous run's output or error
message is discarded. -/
theorem translate_starts_fresh (s : AppState) (_h : s.fileContent ≠ "") :
    (appReducer s .TRANSLATE).translatedText = "" ∧
    (appReducer s .TRANSLATE).error = none ∧
    (appReducer s .TRANSLATE).status = .translating :=
  ⟨rfl, rfl, rfl⟩

/-- C10 witness: the completed run (non-empty content and buffer) starts
fresh on a new `TRANSLATE`. -/
theorem translate_starts_fresh_witness :
    (appReducer completeState .TRANSLATE).translatedText = "" ∧
    (appReducer completeState .TRANSLATE).error = none ∧
    (appReducer completeState .TRANSLATE).status = .translating :=
  translate_starts_fresh completeState (by decide)

/-- C2 counterexample: on a `translating` state with a non-empty buffer,
the `TRANSLATE` action does not return the input state — it clears
`translatedText`, so the result differs from the input. -/
theorem translate_while_translating_cex :
    chunkState.status = .translating ∧
    chunkState.translatedText = "chunk1" ∧
    (appReducer chunkState .TRANSLATE).translatedText = "" ∧
    appReducer chunkState .TRANSLATE ≠ chunkState :=
  ⟨rfl, rfl, rfl, by decide⟩

/-- C2 amended: applying `TRANSLATE` to a `translating` state keeps the
status `translating` and every field other than `error` and
`translatedText` unchanged, but resets `error` to `none` and
`translatedText` to the empty string; in the application a concurrent
translate request never reaches the reducer because the translate control
is disabled while translating. -/
theorem translate_while_translating (s : AppState) (h : s.status = .translating) :
    appReducer s .TRANSLATE = { s with error := none, translatedText := "" } := by
  cases s
  cases h
  rfl

/-- C2 witness: the concrete translating state. -/
theorem translate_while_translating_witness :
    appReducer translatingState .TRANSLATE =
      { translatingState with error := none, translatedText := "" } :=
  translate_while_translating translatingState rfl

/-- C3: the `TRANSLATION_CHUNK` case of the reducer has no status guard
and no session identifier — applied to a state whose status is not
`translating` (here the initial `idle` state) it appends the payload
instead of returning the state unchanged, contradicting the required
stale-chunk handling. -/
theorem stale_chunk_mutates_state :
    initialState.status = .idle ∧
    (appReducer initialState (.TRANSLATION_CHUNK "stale")).translatedText = "stale" ∧
    (appReducer initialState (.TRANSLATION_CHUNK "stale")).status = .idle ∧
    appReducer initialState (.TRANSLATION_CHUNK "stale") ≠ initialState :=
  ⟨rfl, rfl, rfl, by decide⟩

/-- C8 counterexample: with `downloadMode = bilingual`, submitting a new
file (`START_PARSING`) or new text (`SET_TEXT_CONTENT`) resets
`downloadMode` to its default `translation` instead of preserving it. -/
theorem new_document_resets_download_mode_cex :
    (appReducer initialState (.SET_DOWNLOAD_MODE .bilingual)).downloadMode = .bilingual ∧
    (appReducer (appReducer initialState (.SET_DOWNLOAD_MODE .bilingual))
        (.START_PARSING "f.txt")).downloadMode = .translation ∧
    (appReducer (appReducer initialState (.SET_DOWNLOAD_MODE .bilingual))
        (.SET_TEXT_CONTENT "t")).downloadMode = .translation ∧
    (appReducer (appReducer initialState (.SET_DOWNLOAD_MODE .bilingual))
        (.START_PARSING "f.txt")).downloadMode ≠
      (appReducer initialState (.SET_DOWNLOAD_MODE .bilingual)).downloadMode :=
  ⟨rfl, rfl, rfl, by decide⟩

/-- C8 amended: `START_PARSING` and `SET_TEXT_CONTENT` discard the prior
document data (`fileContent` replaced, `translatedText` emptied, `error`
cleared) and preserve `direction` and `anonymize`, but reset
`downloadMode` to its default `translation` rather than preserving it. -/
theorem new_document_discards_data_keeps_some_prefs (s : AppState) (f t : String) :
    (appReducer s (.START_PARSING f)).fileContent = "" ∧
    (appReducer s (.START_PARSING f)).translatedText = "" ∧
    (appReducer s (.START_PARSING f)).error = none ∧
    (appReducer s (.START_PARSING f)).direction = s.direction ∧
    (appReducer s (.START_PARSING f)).anonymize = s.anonymize ∧
    (appReducer s (.START_PARSING f)).downloadMode = .translation ∧
    (appReducer s (.SET_TEXT_CONTENT t)).fileContent = t ∧
    (appReducer s (.SET_TEXT_CONTENT t)).translatedText = "" ∧
    (appReducer s (.SET_TEXT_CONTENT t)).error = none ∧
    (appReducer s (.SET_TEXT_CONTENT t)).direction = s.direction ∧
    (appReducer s (.SET_TEXT_CONTENT t)).anonymize = s.anonymize ∧
    (appReducer s (.SET_TEXT_CONTENT t)).downloadMode = .translation :=
  ⟨rfl, rfl, rfl, rfl, rfl, rfl, rfl, rfl, rfl, rfl, rfl, rfl⟩

/-- C5 counterexample: a block reason carried by a non-first chunk is not
inspected — the run appends that chunk's text and, on normal stream end,
finishes in status `complete`, not `error`. -/
theorem late_block_reason_ignored_cex :
    (handleTranslate readyState
        [⟨"a", none⟩, ⟨"b", some "SAFETY"⟩] .ended).status = .complete ∧
    (handleTranslate readyState
        [⟨"a", none⟩, ⟨"b", some "SAFETY"⟩] .ended).translatedText = "ab" :=
  ⟨rfl, rfl⟩

/-- C5 amended: only a block reason on the FIRST chunk aborts the run to
`error` (with an empty buffer); a block reason on a later chunk is not
inspected and the chunk is treated as ordinary. With an unblocked first
chunk: a stream that raises a failure ends the run in `error` with the
accumulated text retained, a normally ended stream yields `complete`, and
each chunk received while `translating` keeps status `translating` with
its text appended. -/
theorem translating_outcomes (s : AppState) (chunks : List TranslationChunk)
    (msg : String) (hc : s.fileContent ≠ "") (hnb : firstBlocked chunks = false) :
    ((handleTranslate s chunks (.threw msg)).status = .error ∧
     (handleTranslate s chunks (.threw msg)).translatedText = concatTexts chunks ∧
     (handleTranslate s chunks (.threw msg)).error = some msg) ∧
    ((handleTranslate s chunks .ended).status = .complete ∧
     (handleTranslate s chunks .ended).translatedText = concatTexts chunks) ∧
    (∀ u : AppState, u.status = .translating → ∀ txt : String,
      (appReducer u (.TRANSLATION_CHUNK txt)).status = .translating ∧
      (appReducer u (.TRANSLATION_CHUNK txt)).translatedText = u.translatedText ++ txt) ∧
    (∀ (c : TranslationChunk) (rest : List TranslationChunk) (outcome : StreamOutcome),
      strOptTruthy c.blockReason = true →
      (handleTranslate s (c :: rest) outcome).status = .error ∧
      (handleTranslate s (c :: rest) outcome).translatedText = "") := by
  have hloop := streamLoop_unblocked chunks (appReducer s .TRANSLATE) hnb
  have htext : (applyChunks (appReducer s .TRANSLATE) chunks).translatedText =
      concatTexts chunks := by
    rw [applyChunks_translatedText]
    show (appReducer s .TRANSLATE).translatedText ++ _ = _
    rw [show (appReducer s .TRANSLATE).translatedText = "" from rfl, String.empty_append]
  refine ⟨?_, ?_, ?_, ?_⟩
  · simp only [handleTranslate, if_neg hc, hloop]
    exact ⟨rfl, htext, rfl⟩
  · simp only [handleTranslate, if_neg hc, hloop]
    exact ⟨rfl, htext⟩
  · intro u hu txt
    exact ⟨hu ▸ rfl, rfl⟩
  · intro c rest outcome hb
    have hloopb : streamLoop (appReducer s .TRANSLATE) (c :: rest) true =
        (appReducer s .TRANSLATE, some (blockedMessage (c.blockReason.getD ""))) := by
      simp [streamLoop, hb]
    simp only [handleTranslate, if_neg hc, hloopb]
    exact ⟨rfl, rfl⟩

/-- C5 witness: a one-chunk unblocked stream — failure ends in `error`
retaining the text, normal end in `complete` with the text. -/
theorem translating_outcomes_witness :
    ((handleTranslate readyState [⟨"a", none⟩] (.threw "network fault")).status = .error ∧
     (handleTranslate readyState [⟨"a", none⟩]
        (.threw "network fault")).translatedText = concatTexts [⟨"a", none⟩] ∧
     (handleTranslate readyState [⟨"a", none⟩]
        (.threw "network fault")).error = some "network fault") ∧
    ((handleTranslate readyState [⟨"a", none⟩] .ended).status = .complete ∧
     (handleTranslate readyState [⟨"a", none⟩] .ended).translatedText =
        concatTexts [⟨"a", none⟩]) ∧
    (∀ u : AppState, u.status = .translating → ∀ txt : String,
      (appReducer u (.TRANSLATION_CHUNK txt)).status = .translating ∧
      (appReducer u (.TRANSLATION_CHUNK txt)).translatedText = u.translatedText ++ txt) ∧
    (∀ (c : TranslationChunk) (rest : List TranslationChunk) (outcome : StreamOutcome),
      strOptTruthy c.blockReason = true →
      (handleTranslate readyState (c :: rest) outcome).status = .error ∧
      (handleTranslate readyState (c :: rest) outcome).translatedText = "") :=
  translating_outcomes readyState [⟨"a", none⟩] "network fault" (by decide) rfl

/-- C1 counterexample: the reachable state obtained by pasting text,
translating, receiving one chunk and then a stream failure (`SET_ERROR`)
has status `error` and a non-empty `translatedText` — the partial buffer
is retained, refuting the claimed invariant. -/
theorem error_state_retains_buffer_cex :
    Reachable (appReducer chunkState (.SET_ERROR "stream failed")) ∧
    (appReducer chunkState (.SET_ERROR "stream failed")).status = .error ∧
    (appReducer chunkState (.SET_ERROR "stream failed")).translatedText = "chunk1" ∧
    (appReducer chunkState (.SET_ERROR "stream failed")).translatedText ≠ "" := by
  refine ⟨?_, rfl, rfl, by decide⟩
  exact Reachable.setError "stream failed"
    (Reachable.translationChunk "chunk1"
      (Reachable.translate (Reachable.setTextContent "doc" Reachable.init)) rfl)

/-- C1 amended: in every reachable state, `translatedText` is non-empty
only if status is `translating`, `complete` or `error` (the `error` case
retains the partial buffer of a failed run); no reachable state with
status `idle`, `parsing` or `ready` has a non-empty `translatedText`. -/
theorem reachable_buffer_status (s : AppState) (hs : Reachable s) :
    s.translatedText ≠ "" →
    (s.status = .translating ∨ s.status = .complete ∨ s.status = .error) := by
  induction hs with
  | init => intro h; exact absurd rfl h
  | setInputMode m _ ih => exact ih
  | startParsing f _ _ => intro h; exact absurd rfl h
  | parseSuccess t _ hp ih =>
      intro h
      have h' := ih h
      rw [hp] at h'
      rcases h' with h' | h' | h' <;> cases h'
  | setTextContent t _ _ => intro h; exact absurd rfl h
  | setError msg _ _ => intro _; exact Or.inr (Or.inr rfl)
  | translate _ _ => intro h; exact absurd rfl h
  | translationChunk t _ ht _ => intro _; exact Or.inl ht
  | translationComplete _ _ _ => intro _; exact Or.inr (Or.inl rfl)
  | reset _ _ => intro h; exact absurd rfl h
  | setDirection d _ ih => exact ih
  | setAnonymize b _ ih => exact ih
  | setDownloadMode m _ ih => exact ih

/-- C1 witness: the reachable mid-stream state with buffer `"chunk1"` has
one of the three permitted statuses. -/
theorem reachable_buffer_status_witness :
    chunkState.status = .translating ∨
    chunkState.status = .complete ∨
    chunkState.status = .error :=
  reachable_buffer_status chunkState
    (Reachable.translationChunk "chunk1"
      (Reachable.translate (Reachable.setTextContent "doc" Reachable.init)) rfl)
    (by decide)

/-- C9: given paragraph lists (the splitter discards blank paragraphs, so
every paragraph is non-empty), the composition produces exactly
`max originalParas.length translatedParas.length` blocks, pairing the
paragraphs index-wise and substituting the missing-paragraph placeholder
for the absent side without shifting indices. -/
theorem bilingual_blocks_pairing (o t : List String)
    (ho : ∀ p ∈ o, p ≠ "") (ht : ∀ p ∈ t, p ≠ "") :
    (bilingualBlocks o t).length = max o.length t.length ∧
    ∀ i, i < max o.length t.length →
      (bilingualBlocks o t)[i]? = some (
        "--- 段落 " ++ toString (i + 1) ++ " ---\n\n" ++
        (match o[i]? with
         | some p => "原文：\n" ++ p
         | none => "原文：\n" ++ missingPara) ++ "\n\n" ++
        (match t[i]? with
         | some p => "译文：\n" ++ p
         | none => "译文：\n" ++ missingPara)) := by
  constructor
  · simp [bilingualBlocks]
  · intro i hi
    have hblock : (bilingualBlocks o t)[i]? = some (paragraphBlock o t i) := by
      simp [bilingualBlocks, List.getElem?_range hi]
    have horig : originalSide o i = (match o[i]? with
        | some p => "原文：\n" ++ p
        | none => "原文：\n" ++ missingPara) := by
      cases hoi : o[i]? with
      | none => simp [originalSide, hoi]
      | some p =>
          have hp : p ≠ "" := ho p (List.getElem?_mem hoi)
          simp [originalSide, hoi, hp]
    have htrans : translatedSide t i = (match t[i]? with
        | some p => "译文：\n" ++ p
        | none => "译文：\n" ++ missingPara) := by
      cases hti : t[i]? with
      | none => simp [translatedSide, hti]
      | some p =>
          have hp : p ≠ "" := ht p (List.getElem?_mem hti)
          simp [translatedSide, hti, hp]
    rw [hblock, paragraphBlock, horig, htrans]

/-- C9 witness: `originalParas = ["A","B"]`, `translatedParas = ["X"]`
yield 2 blocks, and the second block's translated side is the
missing-paragraph placeholder. -/
theorem bilingual_blocks_pairing_witness :
    (bilingualBlocks ["A", "B"] ["X"]).length = 2 ∧
    (bilingualBlocks ["A", "B"] ["X"])[1]? =
      some ("--- 段落 2 ---\n\n原文：\nB\n\n译文：\n" ++ missingPara) := by
  have h := bilingual_blocks_pairing ["A", "B"] ["X"] (by decide) (by decide)
  refine ⟨by simpa using h.1, ?_⟩
  rw [h.2 1 (by simp)]
  rfl

end LaoChinese
